import Mathlib

/-!
Verification of the adaptive scraping pipeline of `pavkata-python-scraper-idea`.

Shallow embedding of:
  - `app/models/domain_config.py` (SelectorType, ExtractionRule, MediaExtraction,
    DomainConfig, DomainConfig.to_dict);
  - `app/services/schema_generator.py` (SchemaGenerator._parse_config,
    load_config, generate_config);
  - `app/scrapers/content_scraper.py` (ContentScraper._extract_with_selector,
    ContentScraper._extract_media, the field loop of scrape);
  - `app/queue/task_manager.py` (TaskManager.process_task with the Celery retry
    protocol, _update_task_status / _update_task_success / _update_task_failure,
    _update_config_settings);
  - `app/services/queue.py` (QueueManager._process_task retry loop);
  - `app/services/queue_service.py` (_handle_scraping_failure).

Machine-level conventions: Python ints are `Int`, dicts that preserve insertion
order are association lists, a value that may be `None` is an `Option`,
a call that may raise is an `Except`.  Calls into external collaborators
(the HTTP session, the page analyzer, the scrape itself) are modelled as
environment-given outcomes; the control flow around them is translated from
the source.
-/

deriving instance DecidableEq for Except

namespace Scrape

/-! ## Data model (`app/models/domain_config.py`) -/

/-- `class SelectorType(Enum): XPATH = "xpath"; CSS = "css"`. -/
inductive SelectorType where
  | xpath
  | css
deriving DecidableEq, Repr

/-- The `.value` of the enum member. -/
def SelectorType.value : SelectorType → String
  | .xpath => "xpath"
  | .css => "css"

/-- The enum constructor `SelectorType(s)`: succeeds exactly on the two member
values, raises `ValueError` (modelled `none`) otherwise. -/
def SelectorType.ofString (s : String) : Option SelectorType :=
  if s = "xpath" then some .xpath
  else if s = "css" then some .css
  else none

/-- The dynamic value sitting in an `ExtractionRule.selector_type` slot.
Python does not force it to be the enum: `_parse_config` stores the raw JSON
string for media rules (`ExtractionRule(**data)` with no coercion), so the
slot holds either an enum member or a plain string. -/
inductive SelVal where
  | enum (t : SelectorType)
  | str (s : String)
deriving DecidableEq, Repr

/-- `x.value` on the dynamic slot: defined for the enum member, an
`AttributeError` (modelled `none`) on a plain string. -/
def SelVal.value : SelVal → Option String
  | .enum t => some t.value
  | .str _ => none

/-- `@dataclass class ExtractionRule`. -/
structure ExtractionRule where
  selector : String
  selector_type : SelVal
  attr : Option String := none
  post_process : Option String := none
deriving DecidableEq, Repr

/-- `@dataclass class MediaExtraction`. -/
structure MediaExtraction where
  images : ExtractionRule
  videos : ExtractionRule
  embeds : ExtractionRule
deriving DecidableEq, Repr

/-- `@dataclass class DomainConfig`. -/
structure DomainConfig where
  domain : String
  use_headless : Bool := false
  use_proxy : Bool := false
  timeout : Int := 30
  user_agent : Option String := none
  proxy_config : Option (List (String × String)) := none
  retry_count : Int := 3
  extraction_rules : List (String × ExtractionRule)
  media_rules : MediaExtraction
deriving DecidableEq, Repr

/-! ## Persisted JSON layout (`DomainConfig.to_dict`) -/

/-- The dict `to_dict` emits for one entry of `extraction_rules`:
keys `selector`, `selector_type` (the enum `.value` string), `attribute`,
`post_process`. -/
structure RuleJson where
  selector : String
  selector_type : String
  attr : Option String
  post_process : Option String
deriving DecidableEq, Repr

/-- The dict `to_dict` emits for one media rule: keys `selector`,
`selector_type`, `attribute` only — `to_dict` writes no `post_process` key
for media rules. -/
structure MediaRuleJson where
  selector : String
  selector_type : String
  attr : Option String
deriving DecidableEq, Repr

/-- The whole persisted layout as produced by `DomainConfig.to_dict` and
written by `SchemaGenerator.generate_config`. -/
structure ConfigJson where
  domain : String
  use_headless : Bool
  use_proxy : Bool
  timeout : Int
  user_agent : Option String
  proxy_config : Option (List (String × String))
  retry_count : Int
  extraction_rules : List (String × RuleJson)
  media_images : MediaRuleJson
  media_videos : MediaRuleJson
  media_embeds : MediaRuleJson
deriving DecidableEq, Repr

/-- Serialization of one field rule inside `to_dict`
(`"selector_type": v.selector_type.value` needs the enum; a string there is an
`AttributeError`, modelled `none`). -/
def ExtractionRule.toRuleJson (r : ExtractionRule) : Option RuleJson :=
  (r.selector_type.value).map fun v =>
    { selector := r.selector, selector_type := v,
      attr := r.attr, post_process := r.post_process }

/-- Serialization of one media rule inside `to_dict`: same fields except that
no `post_process` key is emitted. -/
def ExtractionRule.toMediaRuleJson (r : ExtractionRule) : Option MediaRuleJson :=
  (r.selector_type.value).map fun v =>
    { selector := r.selector, selector_type := v, attr := r.attr }

/-- The dict comprehension over `self.extraction_rules.items()` in `to_dict`,
in insertion order. -/
def serializeRules : List (String × ExtractionRule) → Option (List (String × RuleJson))
  | [] => some []
  | (k, v) :: rest =>
    match v.toRuleJson, serializeRules rest with
    | some rj, some rs => some ((k, rj) :: rs)
    | _, _ => none

/-- `DomainConfig.to_dict` (domain_config.py lines 34-68). -/
def DomainConfig.to_dict (c : DomainConfig) : Option ConfigJson :=
  match serializeRules c.extraction_rules,
        c.media_rules.images.toMediaRuleJson,
        c.media_rules.videos.toMediaRuleJson,
        c.media_rules.embeds.toMediaRuleJson with
  | some rules, some mi, some mv, some me =>
    some { domain := c.domain, use_headless := c.use_headless,
           use_proxy := c.use_proxy, timeout := c.timeout,
           user_agent := c.user_agent, proxy_config := c.proxy_config,
           retry_count := c.retry_count, extraction_rules := rules,
           media_images := mi, media_videos := mv, media_embeds := me }
  | _, _, _, _ => none

/-! ## `SchemaGenerator._parse_config` (schema_generator.py lines 35-63) -/

/-- One field rule: `ExtractionRule(selector=rule["selector"],
selector_type=SelectorType(rule["selector_type"]), ...)` — the enum
constructor can raise, so the parse of the rule can fail. -/
def parseFieldRule (r : RuleJson) : Option ExtractionRule :=
  (SelectorType.ofString r.selector_type).map fun t =>
    { selector := r.selector, selector_type := .enum t,
      attr := r.attr, post_process := r.post_process }

/-- The dict comprehension over `data["extraction_rules"].items()`. -/
def parseRules : List (String × RuleJson) → Option (List (String × ExtractionRule))
  | [] => some []
  | (k, r) :: rest =>
    match parseFieldRule r, parseRules rest with
    | some e, some es => some ((k, e) :: es)
    | _, _ => none

/-- One media rule: `ExtractionRule(**data["media_rules"][...])` — keyword
expansion of the raw JSON dict, so `selector_type` stays the raw string and
the absent `post_process` key takes the dataclass default `None`. -/
def parseMediaRule (r : MediaRuleJson) : ExtractionRule :=
  { selector := r.selector, selector_type := .str r.selector_type,
    attr := r.attr, post_process := none }

/-- `SchemaGenerator._parse_config`. -/
def parseConfig (j : ConfigJson) : Option DomainConfig :=
  (parseRules j.extraction_rules).map fun rules =>
    { domain := j.domain, use_headless := j.use_headless,
      use_proxy := j.use_proxy, timeout := j.timeout,
      user_agent := j.user_agent, proxy_config := j.proxy_config,
      retry_count := j.retry_count, extraction_rules := rules,
      media_rules := { images := parseMediaRule j.media_images,
                       videos := parseMediaRule j.media_videos,
                       embeds := parseMediaRule j.media_embeds } }

/-! ## Extraction engine (`app/scrapers/content_scraper.py`)

A parsed document is the ordered list of its element nodes.  CSS matching is
abstracted into each node (`css` lists the selectors the node matches); the
engine may also reject a selector altogether (`badCss`), modelling
`soup.select` raising on invalid selector syntax.  The `xpath` branch of the
source calls `soup.find_all(xpath=rule.selector)`, which in BeautifulSoup
filters tags by an HTML **attribute** named `xpath` — modelled exactly so. -/

/-- One element node: its HTML attributes, its `get_text(strip=True)` result
(`none` models the `AttributeError` branch of `_extract_with_selector`), and
the CSS selectors it matches. -/
structure Node where
  attrs : List (String × String)
  text : Option String
  css : List String
deriving DecidableEq, Repr

/-- `element.get(name)`: the attribute value, or `None` when absent. -/
def Node.get (n : Node) (name : String) : Option String :=
  (n.attrs.find? fun p => p.1 = name).map fun p => p.2

/-- A parsed document: nodes in document order, plus the selectors on which
the CSS engine raises. -/
structure Doc where
  nodes : List Node
  badCss : List String
deriving Repr

/-- `soup.select(sel)`: matching nodes in document order, or a raised
exception for a selector the engine rejects. -/
def Doc.select (d : Doc) (sel : String) : Except Unit (List Node) :=
  if sel ∈ d.badCss then .error ()
  else .ok (d.nodes.filter fun n => sel ∈ n.css)

/-- `soup.find_all(xpath=sel)`: tags carrying an HTML attribute `xpath`
whose value equals `sel`, in document order. -/
def Doc.findAllXpathAttr (d : Doc) (sel : String) : List Node :=
  d.nodes.filter fun n => n.get "xpath" = some sel

/-- Python truthiness of an optional string: `None` and `""` are falsy. -/
def pyTruthy : Option String → Bool
  | none => false
  | some s => !s.isEmpty

/-- The element selection shared by `_extract_with_selector` and
`_extract_media`: `if rule.selector_type == SelectorType.CSS: soup.select(...)
else: soup.find_all(xpath=...)`.  Note the equality test against the enum
member: a rule whose slot holds the raw string `"css"` is *not* equal to
`SelectorType.CSS` in Python and falls into the xpath branch. -/
def selectNodes (d : Doc) (r : ExtractionRule) : Except Unit (List Node) :=
  if r.selector_type = .enum .css then d.select r.selector
  else .ok (d.findAllXpathAttr r.selector)

/-- `ContentScraper._extract_with_selector` (content_scraper.py lines 24-52):
the whole body sits in `try/except` returning `None`, no elements returns
`None`, a truthy `attribute` reads it from the first element, otherwise
`get_text(strip=True)` with `AttributeError` degraded to `None`. -/
def extractWithSelector (d : Doc) (r : ExtractionRule) : Option String :=
  match selectNodes d r with
  | .error _ => none
  | .ok [] => none
  | .ok (e :: _) =>
    if pyTruthy r.attr then e.get (r.attr.getD "")
    else
      match e.text with
      | some t => some t
      | none => none

/-- The `for element in elements` loop of `ContentScraper._extract_media`:
`if rule.attribute: url = element.get(rule.attribute); if url: urls.append(url)`.
Appending preserves document order; a node lacking the attribute — or whose
value is falsy, i.e. the empty string — is skipped. -/
def mediaLoop (attr : Option String) : List Node → List String
  | [] => []
  | e :: rest =>
    if pyTruthy attr then
      match e.get (attr.getD "") with
      | some u => if u.isEmpty then mediaLoop attr rest else u :: mediaLoop attr rest
      | none => mediaLoop attr rest
    else mediaLoop attr rest

/-- `ContentScraper._extract_media` (content_scraper.py lines 104-123). -/
def extractMedia (d : Doc) (r : ExtractionRule) : List String :=
  match selectNodes d r with
  | .error _ => []
  | .ok elems => mediaLoop r.attr elems

/-- The field loop of `ContentScraper.scrape` (content_scraper.py lines
79-81): every rule of `extraction_rules` is extracted in turn into the
`content` dict. -/
def extractFields (d : Doc) (rules : List (String × ExtractionRule)) :
    List (String × Option String) :=
  rules.map fun p => (p.1, extractWithSelector d p.2)

/-- The media dict of `ContentScraper.scrape` (content_scraper.py lines
84-88). -/
structure MediaFiles where
  images : List String
  videos : List String
  embeds : List String
deriving DecidableEq, Repr

/-- The pure extraction part of `ContentScraper.scrape`: the `content` dict
and the `media_files` dict computed from a fetched document. -/
def scrapeExtract (d : Doc) (c : DomainConfig) :
    List (String × Option String) × MediaFiles :=
  (extractFields d c.extraction_rules,
   { images := extractMedia d c.media_rules.images,
     videos := extractMedia d c.media_rules.videos,
     embeds := extractMedia d c.media_rules.embeds })

/-- The `for element in elements` loop of `Scraper._extract_media_urls`:
`url = element.get(attribute); if url: urls.append(url)` — no truthiness test
on the attribute name here. -/
def mediaUrlLoop (a : String) : List Node → List String
  | [] => []
  | e :: rest =>
    match e.get a with
    | some u => if u.isEmpty then mediaUrlLoop a rest else u :: mediaUrlLoop a rest
    | none => mediaUrlLoop a rest

/-- `Scraper._extract_media_urls` (app/services/scraper.py lines 233-257), the
duplicate media extractor: dict-based rules with `selector_type` defaulting to
`"css"` and `attribute` defaulting to `"src"`; the whole body is wrapped in
`try/except` returning `[]`. -/
def extractMediaUrls (d : Doc) (selector_type : Option String)
    (selector : String) (attr : Option String) : List String :=
  let st := selector_type.getD "css"
  let a := attr.getD "src"
  let elemsE := if st = "xpath" then .ok (d.findAllXpathAttr selector)
                else d.select selector
  match elemsE with
  | .error _ => []
  | .ok elems => mediaUrlLoop a elems

/-! ## Recipe store, `load_config` and `generate_config`
(`app/services/schema_generator.py`)

The config directory is a mapping from domain to the JSON value of
`<domain>.json` (absent file = `none`). -/

/-- The persisted recipe store: one optional JSON document per domain. -/
def Store : Type := String → Option ConfigJson

/-- `SchemaGenerator.load_config` (schema_generator.py lines 20-33): if the
file exists, parse it; any exception while parsing is logged and yields
`None`. -/
def loadConfig (store : Store) (domain : String) : Option DomainConfig :=
  match store domain with
  | none => none
  | some j => parseConfig j

/-- Exception kinds relevant to `TaskManager.process_task`.  The inner
`except (MissingContentError, ExtractionError)` catches the first two; the
outer `except ScrapingException` catches those plus `scraping`
(`MissingContentError` and `ExtractionError` are imported from
`app.core.exceptions` next to `ScrapingException` and are modelled as its
subclasses); `other` is any non-`ScrapingException` error (a `TypeError`, a
`requests` transport error, an analyzer failure...). -/
inductive PyErr where
  | missingContent
  | extractionErr
  | scraping
  | other
deriving DecidableEq, Repr

/-- `isinstance(e, ScrapingException)`. -/
def PyErr.isScrapingException : PyErr → Bool
  | .missingContent => true
  | .extractionErr => true
  | .scraping => true
  | .other => false

/-- `SchemaGenerator.generate_config` (schema_generator.py lines 65-99) with
the analyzer call abstracted: `outcome` is the converted result of
`crawler.analyze_page` (or the exception it raised — re-raised by the
`except` clause).  On success the config is serialized with `to_dict` and
written to `<domain>.json` before being returned; on failure nothing is
persisted. -/
def generateConfigStep (store : Store) (domain : String)
    (outcome : Except PyErr DomainConfig) : Store × Except PyErr DomainConfig :=
  match outcome with
  | .error e => (store, .error e)
  | .ok cfg =>
    match cfg.to_dict with
    | some j => (fun d => if d = domain then some j else store d, .ok cfg)
    | none => (store, .error .other)

/-! ## `TaskManager.process_task` (`app/queue/task_manager.py`)

One Celery execution of the task body, with the collaborator outcomes given
by an environment.  The task store writes are recorded as the ordered list of
statuses assigned to the task. -/

/-- `class TaskStatus(Enum)` (app/models/task_status.py). -/
inductive TaskStatus where
  | queued
  | processing
  | completed
  | failed
deriving DecidableEq, Repr

/-- The collaborator outcomes one execution of `process_task` can observe:
the analyzer outcome behind `generate_config(url)`, the one behind
`generate_config(url, force_refresh=True)`, and the two
`content_scraper.scrape` calls. -/
structure ExecEnv where
  genOutcome : Except PyErr DomainConfig
  regenOutcome : Except PyErr DomainConfig
  scrape1 : Except PyErr Unit
  scrape2 : Except PyErr Unit

/-- How one execution of the `try` body of `process_task` ends: the task is
updated with success, or an exception reaches the outer handlers. -/
inductive ExecOutcome where
  | success
  | failure (e : PyErr)
deriving DecidableEq, Repr

/-- Lines 96-100 of `process_task`:
`config = await self.schema_generator.load_config(url);
if not config: config = await self.schema_generator.generate_config(url)`.
A `DomainConfig` instance is always truthy, so the generator runs exactly
when `load_config` returned `None`.  Returns the store after the step, the
config or the raised error, and the number of generator invocations. -/
def resolveConfig (store : Store) (domain : String)
    (genOutcome : Except PyErr DomainConfig) :
    Store × Except PyErr DomainConfig × Nat :=
  match loadConfig store domain with
  | some cfg => (store, .ok cfg, 0)
  | none =>
    match generateConfigStep store domain genOutcome with
    | (s, r) => (s, r, 1)

/-- Lines 117-132 of `process_task`: the regeneration path taken by the inner
`except (MissingContentError, ExtractionError)` handler.  The regeneration
call itself may raise (that error propagates to the outer handlers); after a
successful regeneration the scrape is retried once, and a second failure is
wrapped in a fresh `ScrapingException`.  Returns the store, the outcome and
the number of regeneration attempts (always 1 on this path). -/
def regenPath (store : Store) (domain : String) (env : ExecEnv) :
    Store × ExecOutcome × Nat :=
  match generateConfigStep store domain env.regenOutcome with
  | (s, .error e) => (s, .failure e, 1)
  | (s, .ok _) =>
    match env.scrape2 with
    | .ok _ => (s, .success, 1)
    | .error _ => (s, .failure .scraping, 1)

/-- The `try` body of `process_task` (lines 92-132): resolve the config, then
scrape; `MissingContentError` / `ExtractionError` divert into the
regeneration path, any other scrape error propagates.  Returns the store, the
outcome, the regeneration count and the initial-generation count. -/
def processTaskCore (store : Store) (domain : String) (env : ExecEnv) :
    Store × ExecOutcome × Nat × Nat :=
  match resolveConfig store domain env.genOutcome with
  | (s, .error e, g) => (s, .failure e, 0, g)
  | (s, .ok _, g) =>
    match env.scrape1 with
    | .ok _ => (s, .success, 0, g)
    | .error .missingContent =>
      match regenPath s domain env with
      | (s2, out, rc) => (s2, out, rc, g)
    | .error .extractionErr =>
      match regenPath s domain env with
      | (s2, out, rc) => (s2, out, rc, g)
    | .error e => (s, .failure e, 0, g)

/-- The result of one Celery execution of `process_task`: the store, the
statuses written to the task in order, the retry countdown if
`self.process_task.retry` was raised, and the regeneration /
initial-generation counts. -/
structure ExecResult where
  store : Store
  statuses : List TaskStatus
  retryDelay : Option Nat
  regenCalls : Nat
  genCalls : Nat

/-- One full Celery execution of `process_task` (lines 78-153), run with
`request.retries = retries` and `max_retries = maxRetries`:
`_update_task_status(PROCESSING)` first; on success `_update_task_success`
writes `COMPLETED`; on any exception the handlers call
`_update_task_failure` (status `FAILED`) — and the `except ScrapingException`
handler additionally schedules a retry with countdown `60 * 2 ** retries`
when `retries < max_retries`, while the generic `except Exception` handler
never retries. -/
def processTaskExec (store : Store) (domain : String) (env : ExecEnv)
    (retries maxRetries : Nat) : ExecResult :=
  match processTaskCore store domain env with
  | (s, .success, rc, g) =>
    { store := s, statuses := [.processing, .completed], retryDelay := none,
      regenCalls := rc, genCalls := g }
  | (s, .failure e, rc, g) =>
    { store := s, statuses := [.processing, .failed],
      retryDelay := if e.isScrapingException ∧ retries < maxRetries
                    then some (60 * 2 ^ retries) else none,
      regenCalls := rc, genCalls := g }

/-- The whole-lifetime view of one task under Celery redelivery. -/
structure LifetimeResult where
  store : Store
  statuses : List TaskStatus
  delays : List Nat
  regenCalls : Nat
  genCalls : Nat

/-- Celery redelivery: execution `r` runs `process_task` with
`request.retries = r`; when it raises `self.process_task.retry(countdown=δ)`
the task is re-executed after `δ` seconds with the counter incremented.  The
fuel argument bounds the recursion; `maxRetries + 1` executions always
suffice because an execution with `retries = maxRetries` never schedules a
retry. -/
def lifetimeGo (envs : Nat → ExecEnv) (domain : String) (maxRetries : Nat) :
    Store → Nat → Nat → LifetimeResult
  | store, _, 0 =>
    { store := store, statuses := [], delays := [], regenCalls := 0, genCalls := 0 }
  | store, r, fuel + 1 =>
    let ex := processTaskExec store domain (envs r) r maxRetries
    match ex.retryDelay with
    | none =>
      { store := ex.store, statuses := ex.statuses, delays := [],
        regenCalls := ex.regenCalls, genCalls := ex.genCalls }
    | some delay =>
      let rest := lifetimeGo envs domain maxRetries ex.store (r + 1) fuel
      { store := rest.store, statuses := ex.statuses ++ rest.statuses,
        delays := delay :: rest.delays,
        regenCalls := ex.regenCalls + rest.regenCalls,
        genCalls := ex.genCalls + rest.genCalls }

/-- A task's whole lifetime, from its creation in `QUEUED`
(`QueueManager.create_task`) through every Celery execution. -/
def lifetimeRun (envs : Nat → ExecEnv) (store : Store) (domain : String)
    (maxRetries : Nat) : LifetimeResult :=
  lifetimeGo envs domain maxRetries store 0 (maxRetries + 1)

/-- The full status trace a client polling the task store could observe:
`QUEUED` at creation, then every status written while processing. -/
def taskTrace (envs : Nat → ExecEnv) (store : Store) (domain : String)
    (maxRetries : Nat) : List TaskStatus :=
  .queued :: (lifetimeRun envs store domain maxRetries).statuses

/-! ## `QueueManager._process_task` (`app/services/queue.py` lines 49-76)

The duplicate asyncio retry loop: `max_attempts = 3; attempt = 0; while
attempt < max_attempts:` scrape; on success mark `COMPLETED` and return; on
exception `attempt += 1`, and if `attempt >= max_attempts` mark `FAILED` and
return, else `await asyncio.sleep(60 * (2 ** attempt))` and loop. -/

/-- Final state of the loop: task status, final value of `attempt`, and the
backoff sleeps performed, in order. -/
structure QueueSim where
  status : TaskStatus
  attempt : Nat
  delays : List Nat
deriving DecidableEq, Repr

/-- The `while attempt < max_attempts` loop; `out k` tells whether the
scrape of the attempt starting with `attempt = k` succeeds.  The fuel equals
`maxAttempts - attempt`, so the fuel-0 case is the loop condition failing
(reachable only with `maxAttempts = 0`, where the task stays `QUEUED`). -/
def queueGo (maxAttempts : Nat) (out : Nat → Bool) :
    Nat → Nat → QueueSim
  | attempt, 0 => { status := .queued, attempt := attempt, delays := [] }
  | attempt, fuel + 1 =>
    if out attempt then { status := .completed, attempt := attempt, delays := [] }
    else
      if attempt + 1 ≥ maxAttempts then
        { status := .failed, attempt := attempt + 1, delays := [] }
      else
        let rest := queueGo maxAttempts out (attempt + 1) fuel
        { status := rest.status, attempt := rest.attempt,
          delays := 60 * 2 ^ (attempt + 1) :: rest.delays }

/-- `QueueManager._process_task` with its hard-coded `max_attempts = 3`. -/
def queueProcessTask (out : Nat → Bool) : QueueSim :=
  queueGo 3 out 0 3

/-! ## `_handle_scraping_failure` (`app/services/queue_service.py`)

The failure handler of the third duplicate pipeline, the only place in the
repository with a `schema_regenerated` flag (`TaskInfo.schema_regenerated`,
app/models/task.py). -/

/-- The part of `TaskInfo` (app/models/task.py) the handler touches. -/
structure TaskInfo where
  schema_regenerated : Bool
  error : Option String
deriving DecidableEq, Repr

/-- The `isinstance` classification used by `_handle_scraping_failure`. -/
inductive ScrapeFailure where
  | missing
  | extraction
  | otherFailure
deriving DecidableEq, Repr

/-- `_handle_scraping_failure` (queue_service.py lines 1-66): regenerate when
the error is a `MissingContentError`, or an `ExtractionError` with the flag
still false; a successful regeneration sets the flag and returns `True`
(retry); a failed regeneration records the error and returns `False`; a
non-qualifying error returns `False`.  Result: (retry?, updated task info,
number of regeneration attempts). -/
def handleScrapingFailure (regenOk : Bool) (ti : TaskInfo)
    (e : ScrapeFailure) : Bool × TaskInfo × Nat :=
  if e = .missing ∨ (e = .extraction ∧ ti.schema_regenerated = false) then
    if regenOk then
      (true, { ti with schema_regenerated := true }, 1)
    else
      (false, { ti with error := some "Schema regeneration failed" }, 1)
  else
    (false, ti, 0)

/-! ## `TaskManager._update_config_settings` (`app/queue/task_manager.py`
lines 155-165)

The request-override step works on the config value it is handed and
contains no store or file write; the store is threaded through unchanged. -/

/-- The dict view `_update_config_settings` manipulates: the `headers` and
`timeout` keys it touches, and every other key untouched. -/
structure ReqConfigDict where
  headers : Option (List (String × String))
  timeout : Option Int
  rest : List (String × String)
deriving DecidableEq, Repr

/-- Python `{**a, **b}`: keys of `a` in order, values overridden by `b`,
then the keys of `b` not in `a`, in order. -/
def mergeDicts (a b : List (String × String)) : List (String × String) :=
  (a.map fun p => (p.1, ((b.find? fun q => q.1 = p.1).map fun q => q.2).getD p.2))
    ++ b.filter fun q => a.all fun p => p.1 ≠ q.1

/-- `TaskManager._update_config_settings`: `if headers:` (an absent or empty
dict is falsy) merge them under the `headers` key, then unconditionally set
`timeout`. -/
def updateConfigSettings (config : ReqConfigDict)
    (headers : Option (List (String × String))) (timeout : Int) : ReqConfigDict :=
  let c1 :=
    match headers with
    | none => config
    | some hs =>
      if hs.isEmpty then config
      else { config with headers := some (mergeDicts (config.headers.getD []) hs) }
  { c1 with timeout := some timeout }

/-- The override step as executed inside `process_task` (line 103):
`config = self._update_config_settings(config, headers, timeout)` — a pure
reassignment of the in-flight config; the persisted store is not written. -/
def applyRequestOverrides (store : Store) (config : ReqConfigDict)
    (headers : Option (List (String × String))) (timeout : Int) :
    Store × ReqConfigDict :=
  (store, updateConfigSettings config headers timeout)

/-! ## Sample data -/

/-- A well-formed generated recipe (all `selector_type` slots hold the enum,
as `_convert_schema_to_config` produces). -/
def cfgGen : DomainConfig :=
  { domain := "example.com",
    extraction_rules := [("title", { selector := "h1", selector_type := .enum .css })],
    media_rules :=
      { images := { selector := "img", selector_type := .enum .css, attr := some "src" },
        videos := { selector := "video", selector_type := .enum .css, attr := some "src" },
        embeds := { selector := "iframe", selector_type := .enum .css, attr := some "src" } } }

/-- The persisted layout of `cfgGen`, i.e. the value of `cfgGen.to_dict`. -/
def jGen : ConfigJson :=
  { domain := "example.com", use_headless := false, use_proxy := false,
    timeout := 30, user_agent := none, proxy_config := none, retry_count := 3,
    extraction_rules := [("title", { selector := "h1", selector_type := "css",
                                     attr := none, post_process := none })],
    media_images := { selector := "img", selector_type := "css", attr := some "src" },
    media_videos := { selector := "video", selector_type := "css", attr := some "src" },
    media_embeds := { selector := "iframe", selector_type := "css", attr := some "src" } }

/-- What `_parse_config` makes of `jGen`: the field rules come back intact,
the media rules come back with the raw string in the `selector_type` slot. -/
def cfgParsed : DomainConfig :=
  { domain := "example.com",
    extraction_rules := [("title", { selector := "h1", selector_type := .enum .css })],
    media_rules :=
      { images := { selector := "img", selector_type := .str "css", attr := some "src" },
        videos := { selector := "video", selector_type := .str "css", attr := some "src" },
        embeds := { selector := "iframe", selector_type := .str "css", attr := some "src" } } }

/-- An empty recipe store. -/
def emptyStore : Store := fun _ => none

/-- A store already holding the persisted recipe for `example.com`. -/
def storeGen : Store := fun d => if d = "example.com" then some jGen else none

/-- `cfgGen` with a `post_process` on its images rule — a recipe whose media
post-processing survives serialization in neither direction. -/
def cfgStrip : DomainConfig :=
  { cfgGen with media_rules :=
      { cfgGen.media_rules with images :=
          { selector := "img", selector_type := .enum .css,
            attr := some "src", post_process := some "strip" } } }

/-! ## C4: Recipe round-trip -/

/-- What a media rule becomes after one save/load cycle: the enum
`selector_type` is flattened to its string value and `post_process` is
dropped. -/
def mediaReload (r : ExtractionRule) : ExtractionRule :=
  { selector := r.selector, selector_type := .str (r.selector_type.value.getD ""),
    attr := r.attr, post_process := none }

/-- A serialized field rule parses back to the original rule. -/
theorem parseFieldRule_toRuleJson (v : ExtractionRule) (rj : RuleJson)
    (h : v.toRuleJson = some rj) : parseFieldRule rj = some v := by
  rcases v with ⟨sel, st, a, pp⟩
  cases st with
  | enum t =>
    cases t <;>
      simp [ExtractionRule.toRuleJson, SelVal.value, SelectorType.value] at h <;>
      simp [← h, parseFieldRule, SelectorType.ofString]
  | str s => simp [ExtractionRule.toRuleJson, SelVal.value] at h

/-- The serialized `extraction_rules` dict parses back to the original
rules. -/
theorem parseRules_serializeRules (rs : List (String × ExtractionRule))
    (out : List (String × RuleJson)) (h : serializeRules rs = some out) :
    parseRules out = some rs := by
  induction rs generalizing out with
  | nil =>
    simp [serializeRules] at h
    subst h
    rfl
  | cons p rest ih =>
    rcases p with ⟨k, v⟩
    rcases hj : v.toRuleJson with _ | rj <;>
      rcases hr : serializeRules rest with _ | rs2 <;>
      simp [serializeRules, hj, hr] at h
    subst h
    simp [parseRules, parseFieldRule_toRuleJson v rj hj, ih rs2 hr]

/-- A serialized media rule parses back to `mediaReload` of the original. -/
theorem parseMediaRule_toMediaRuleJson (v : ExtractionRule) (mj : MediaRuleJson)
    (h : v.toMediaRuleJson = some mj) : parseMediaRule mj = mediaReload v := by
  rcases v with ⟨sel, st, a, pp⟩
  cases st with
  | enum t =>
    simp [ExtractionRule.toMediaRuleJson, SelVal.value] at h
    simp [← h, parseMediaRule, mediaReload, SelVal.value]
  | str s => simp [ExtractionRule.toMediaRuleJson, SelVal.value] at h

/-- C4, counterexample: serializing `cfgStrip` with `to_dict` and reparsing
with `_parse_config` does not reproduce the recipe — the media rules lose
`post_process` and their `selector_type` comes back as a raw string, so the
round trip is not the identity. -/
theorem C4_roundtrip_cex : (cfgStrip.to_dict).bind parseConfig ≠ some cfgStrip := by
  decide

/-- C4, amended: save/load reproduces the recipe except on the media rules,
which come back with `selector_type` flattened to its serialized string and
`post_process` reset to `None` (`mediaReload`); every other field, including
all field extraction rules, round-trips exactly. -/
theorem C4_roundtrip_amended (c : DomainConfig) (j : ConfigJson)
    (h : c.to_dict = some j) :
    parseConfig j = some { c with media_rules :=
      { images := mediaReload c.media_rules.images,
        videos := mediaReload c.media_rules.videos,
        embeds := mediaReload c.media_rules.embeds } } := by
  rcases hr : serializeRules c.extraction_rules with _ | rules <;>
    rcases hi : c.media_rules.images.toMediaRuleJson with _ | mi <;>
    rcases hv : c.media_rules.videos.toMediaRuleJson with _ | mv <;>
    rcases he : c.media_rules.embeds.toMediaRuleJson with _ | me <;>
    simp [DomainConfig.to_dict, hr, hi, hv, he] at h
  simp [← h, parseConfig, parseRules_serializeRules _ _ hr,
    parseMediaRule_toMediaRuleJson _ _ hi, parseMediaRule_toMediaRuleJson _ _ hv,
    parseMediaRule_toMediaRuleJson _ _ he]

/-- C4 witness: the amended round trip at the concrete recipe `cfgGen`. -/
theorem C4_roundtrip_witness :
    cfgGen.to_dict = some jGen ∧ parseConfig jGen = some cfgParsed :=
  ⟨by decide, C4_roundtrip_amended cfgGen jGen (by decide)⟩

/-! ## C5: zero-match field rules degrade to absent, extraction continues -/

/-- C5: a field rule whose selector matches no nodes extracts to `None`
(never an exception — the return is total), and the field loop of `scrape`
still extracts every other rule exactly as it would alone. -/
theorem C5_zero_match_absent (d : Doc) (f : String) (r : ExtractionRule)
    (pre post : List (String × ExtractionRule))
    (h : selectNodes d r = .ok []) :
    extractWithSelector d r = none ∧
    extractFields d (pre ++ (f, r) :: post) =
      extractFields d pre ++ (f, none) :: extractFields d post := by
  constructor
  · unfold extractWithSelector
    rw [h]
  · unfold extractFields
    rw [List.map_append, List.map_cons]
    unfold extractWithSelector
    rw [h]

/-- A document with a single paragraph node; the selector `h1` matches
nothing in it. -/
def docPara : Doc :=
  { nodes := [{ attrs := [("class", "x")], text := some "hello", css := ["p"] }],
    badCss := [] }

/-- A title rule whose selector misses `docPara`. -/
def ruleH1 : ExtractionRule := { selector := "h1", selector_type := .enum .css }

/-- A body rule that does match `docPara`. -/
def ruleP : ExtractionRule := { selector := "p", selector_type := .enum .css }

/-- C5 witness: in `docPara` the `h1` rule matches nothing, extracts to
`None`, and the `p` rule around it still extracts its text. -/
theorem C5_zero_match_absent_witness :
    selectNodes docPara ruleH1 = .ok [] ∧
    extractWithSelector docPara ruleH1 = none ∧
    extractFields docPara [("content", ruleP), ("title", ruleH1)] =
      [("content", some "hello"), ("title", none)] :=
  ⟨by decide,
   (C5_zero_match_absent docPara "title" ruleH1 [("content", ruleP)] [] (by decide)).1,
   (C5_zero_match_absent docPara "title" ruleH1 [("content", ruleP)] [] (by decide)).2⟩

/-! ## C6: media extraction over every matching node -/

/-- Media extraction as the specification words it (for comparison): read
`attribute` from every matching node, append the values in document order,
skip only the nodes lacking the attribute. -/
def specMediaExtract (d : Doc) (r : ExtractionRule) : List String :=
  match selectNodes d r with
  | .error _ => []
  | .ok elems => elems.filterMap fun e => e.get (r.attr.getD "")

/-- An image node whose `src` attribute is present but empty. -/
def docEmptySrc : Doc :=
  { nodes := [{ attrs := [("src", "")], text := some "", css := ["img"] }],
    badCss := [] }

/-- The images rule reading `src`. -/
def ruleImgSrc : ExtractionRule :=
  { selector := "img", selector_type := .enum .css, attr := some "src" }

/-- C6, counterexample: on a matching node whose `src` attribute is present
but empty, `_extract_media` drops the value (`if url:` is falsy on `""`),
while the claim would append it — the code and the claimed behaviour
disagree. -/
theorem C6_media_order_cex :
    extractMedia docEmptySrc ruleImgSrc ≠ specMediaExtract docEmptySrc ruleImgSrc := by
  decide

/-- A non-empty attribute name is truthy. -/
theorem pyTruthy_some (a : String) (hne : a ≠ "") : pyTruthy (some a) = true := by
  unfold pyTruthy
  cases hz : a.isEmpty with
  | false => simp [hz]
  | true => exact absurd ((String.isEmpty_iff a).mp hz) hne

/-- The loop of `_extract_media` with a truthy attribute keeps, in order,
every non-empty attribute value of the nodes it walks. -/
theorem mediaLoop_eq_filterMap (a : String) (hne : a ≠ "") (ns : List Node) :
    mediaLoop (some a) ns =
      ns.filterMap fun e =>
        match e.get a with
        | some u => if u.isEmpty then none else some u
        | none => none := by
  induction ns with
  | nil => rfl
  | cons e rest ih =>
    rcases hu : e.get a with _ | u
    · simp [mediaLoop, pyTruthy_some a hne, hu, List.filterMap_cons, ih]
    · cases hz : u.isEmpty <;>
        simp [mediaLoop, pyTruthy_some a hne, hu, hz, List.filterMap_cons, ih]

/-- Dropping the empty values keeps a subsequence of the full attribute
sequence. -/
theorem mediaLoop_sublist (a : String) (hne : a ≠ "") (ns : List Node) :
    (mediaLoop (some a) ns).Sublist (ns.filterMap fun e => e.get a) := by
  induction ns with
  | nil => simp [mediaLoop]
  | cons e rest ih =>
    rcases hu : e.get a with _ | u
    · have h1 : mediaLoop (some a) (e :: rest) = mediaLoop (some a) rest := by
        simp [mediaLoop, pyTruthy_some a hne, hu]
      have h2 : List.filterMap (fun x => x.get a) (e :: rest) =
          List.filterMap (fun x => x.get a) rest := by
        simp [List.filterMap_cons, hu]
      rw [h1, h2]
      exact ih
    · cases hz : u.isEmpty with
      | true =>
        have h1 : mediaLoop (some a) (e :: rest) = mediaLoop (some a) rest := by
          simp [mediaLoop, pyTruthy_some a hne, hu, hz]
        have h2 : List.filterMap (fun x => x.get a) (e :: rest) =
            u :: List.filterMap (fun x => x.get a) rest := by
          simp [List.filterMap_cons, hu]
        rw [h1, h2]
        exact ih.cons u
      | false =>
        have h1 : mediaLoop (some a) (e :: rest) = u :: mediaLoop (some a) rest := by
          simp [mediaLoop, pyTruthy_some a hne, hu, hz]
        have h2 : List.filterMap (fun x => x.get a) (e :: rest) =
            u :: List.filterMap (fun x => x.get a) rest := by
          simp [List.filterMap_cons, hu]
        rw [h1, h2]
        exact ih.cons₂ u

/-- C6, amended: for a media rule with a set, non-empty `attribute`,
`_extract_media` reads the attribute from **every** matching node — not only
the first — and appends the values in document order with duplicates kept;
nodes lacking the attribute are skipped, and so are nodes whose attribute
value is the empty string (`if url:`).  In particular the result is a
subsequence of the full in-order attribute sequence of the matched nodes,
and the whole computation is a function of `(document, rule)` alone. -/
theorem C6_media_order_amended (d : Doc) (r : ExtractionRule) (a : String)
    (ha : r.attr = some a) (hne : a ≠ "") :
    extractMedia d r =
      (match selectNodes d r with
       | .error _ => []
       | .ok elems => elems.filterMap fun e =>
           match e.get a with
           | some u => if u.isEmpty then none else some u
           | none => none) ∧
    (∀ ns, selectNodes d r = .ok ns →
      (extractMedia d r).Sublist (ns.filterMap fun e => e.get a)) := by
  constructor
  · unfold extractMedia
    rcases hs : selectNodes d r with _ | ns
    · rfl
    · simpa [ha] using mediaLoop_eq_filterMap a hne ns
  · intro ns hs
    unfold extractMedia
    rw [hs, ha]
    exact mediaLoop_sublist a hne ns

/-- A three-image document: one normal, one lacking `src`, one duplicating
the first value. -/
def docThreeImgs : Doc :=
  { nodes :=
      [{ attrs := [("src", "a.png")], text := none, css := ["img"] },
       { attrs := [("alt", "no src here")], text := none, css := ["img"] },
       { attrs := [("src", "a.png")], text := none, css := ["img"] }],
    badCss := [] }

/-- C6 witness: the amended statement at `docThreeImgs` — both values read in
document order, duplicate kept, attribute-less node skipped. -/
theorem C6_media_order_witness :
    ruleImgSrc.attr = some "src" ∧
    extractMedia docThreeImgs ruleImgSrc = ["a.png", "a.png"] ∧
    (extractMedia docThreeImgs ruleImgSrc).Sublist
      (docThreeImgs.nodes.filterMap fun e => e.get "src") :=
  ⟨rfl, by decide,
   (C6_media_order_amended docThreeImgs ruleImgSrc "src" rfl (by decide)).2
     docThreeImgs.nodes (by decide)⟩

/-! ## C10: media rules without an attribute collect nothing -/

/-- The media loop appends nothing when the rule has no attribute. -/
theorem mediaLoop_none (ns : List Node) : mediaLoop none ns = [] := by
  induction ns with
  | nil => rfl
  | cons e rest ih => simpa [mediaLoop, pyTruthy] using ih

/-- C10: a media rule whose `attribute` is unset extracts the empty list from
every document, even when its selector matches nodes — `_extract_media` only
appends inside `if rule.attribute:`. -/
theorem C10_no_attr_empty (d : Doc) (r : ExtractionRule) (h : r.attr = none) :
    extractMedia d r = [] := by
  unfold extractMedia
  rcases hs : selectNodes d r with _ | ns
  · rfl
  · rw [h]
    exact mediaLoop_none ns

/-- The images rule with no attribute set. -/
def ruleImgNoAttr : ExtractionRule := { selector := "img", selector_type := .enum .css }

/-- C10 witness: in `docThreeImgs` the selector matches three nodes, yet the
attribute-less rule extracts nothing. -/
theorem C10_no_attr_empty_witness :
    ruleImgNoAttr.attr = none ∧
    (selectNodes docThreeImgs ruleImgNoAttr = .ok docThreeImgs.nodes) ∧
    extractMedia docThreeImgs ruleImgNoAttr = [] :=
  ⟨rfl, by decide, C10_no_attr_empty docThreeImgs ruleImgNoAttr rfl⟩

/-! ## C1: the task status state machine -/

/-- The transition relation the specification claims: `Queued -> Processing
-> {Completed, Failed}` with both `Completed` and `Failed` terminal. -/
def specStep : TaskStatus → TaskStatus → Bool
  | .queued, .processing => true
  | .processing, .completed => true
  | .processing, .failed => true
  | _, _ => false

/-- The transition relation the code actually realizes: additionally
`Failed -> Processing`, because `process_task` writes `FAILED` before raising
`self.process_task.retry`, and the redelivered execution writes `PROCESSING`
again. -/
def codeStep : TaskStatus → TaskStatus → Bool
  | .queued, .processing => true
  | .processing, .completed => true
  | .processing, .failed => true
  | .failed, .processing => true
  | _, _ => false

/-- An execution whose scrape raises a plain `ScrapingException`. -/
def envScrapeFail : ExecEnv :=
  { genOutcome := .ok cfgGen, regenOutcome := .ok cfgGen,
    scrape1 := .error .scraping, scrape2 := .ok () }

/-- An execution whose scrape succeeds. -/
def envScrapeOk : ExecEnv :=
  { genOutcome := .ok cfgGen, regenOutcome := .ok cfgGen,
    scrape1 := .ok (), scrape2 := .ok () }

/-- First execution fails, the redelivered one succeeds. -/
def envsFailThenOk : Nat → ExecEnv :=
  fun r => if r = 0 then envScrapeFail else envScrapeOk

/-- C1, counterexample: a task whose first execution fails with a
`ScrapingException` and whose retry succeeds is observed as
`QUEUED, PROCESSING, FAILED, PROCESSING, COMPLETED` — the `FAILED ->
PROCESSING` step leaves a "terminal" state, so the claimed transition
relation is violated. -/
theorem C1_status_machine_cex :
    ¬ List.Chain' (fun a b => specStep a b = true)
        (taskTrace envsFailThenOk emptyStore "example.com" 3) := by
  intro h
  rw [show taskTrace envsFailThenOk emptyStore "example.com" 3 =
        [.queued, .processing, .failed, .processing, .completed] from by decide] at h
  simp [List.chain'_cons, specStep] at h

/-- Every execution writes `PROCESSING` then exactly one of `COMPLETED`
(no retry scheduled) or `FAILED`. -/
theorem exec_statuses_shape (store : Store) (d : String) (env : ExecEnv)
    (r m : Nat) :
    ((processTaskExec store d env r m).statuses = [.processing, .completed] ∧
      (processTaskExec store d env r m).retryDelay = none) ∨
    (processTaskExec store d env r m).statuses = [.processing, .failed] := by
  rcases h : processTaskCore store d env with ⟨s, out, rc, g⟩
  cases out with
  | success => exact Or.inl (by simp [processTaskExec, h])
  | failure e => exact Or.inr (by simp [processTaskExec, h])

/-- The statuses written over a whole lifetime follow `codeStep`, start with
`PROCESSING` when non-empty, and number at most two per execution. -/
theorem lifetime_statuses_chain (envs : Nat → ExecEnv) (d : String) (m : Nat) :
    ∀ (fuel r : Nat) (store : Store),
      List.Chain' (fun a b => codeStep a b = true)
        ((lifetimeGo envs d m store r fuel).statuses) ∧
      ((lifetimeGo envs d m store r fuel).statuses = [] ∨
        ((lifetimeGo envs d m store r fuel).statuses).head? = some .processing) ∧
      ((lifetimeGo envs d m store r fuel).statuses).length ≤ 2 * fuel := by
  intro fuel
  induction fuel with
  | zero => intro r store; simp [lifetimeGo]
  | succ fuel ih =>
    intro r store
    rcases hd : (processTaskExec store d (envs r) r m).retryDelay with _ | delay
    · rcases exec_statuses_shape store d (envs r) r m with ⟨hst, _⟩ | hst <;>
        simp [lifetimeGo, hd, hst] <;> decide
    · have hst : (processTaskExec store d (envs r) r m).statuses =
          [.processing, .failed] := by
        rcases exec_statuses_shape store d (envs r) r m with ⟨_, hn⟩ | hst
        · rw [hd] at hn; cases hn
        · exact hst
      have hrest := ih (r + 1) (processTaskExec store d (envs r) r m).store
      simp only [lifetimeGo, hd, hst]
      refine ⟨?_, ?_, ?_⟩
      · simp only [List.cons_append, List.nil_append]
        rw [List.chain'_cons', List.chain'_cons']
        refine ⟨by simp [codeStep], ?_, hrest.1⟩
        intro y hy
        rcases hrest.2.1 with he | hh
        · rw [he] at hy
          cases hy
        · rw [hh] at hy
          cases hy
          simp [codeStep]
      · simp
      · have := hrest.2.2
        simp only [List.cons_append, List.nil_append, List.length_cons]
        omega

/-- C1, amended: the status trace a poller observes follows `Queued ->
Processing -> {Completed, Failed}` **plus** the extra step `Failed ->
Processing` taken whenever a failed execution schedules a Celery retry;
`Completed` is genuinely terminal (no transition leaves it), `Failed` is left
only by re-entering `Processing`, and the trace is bounded by the retry
budget: at most `2 * (maxRetries + 1) + 1` status writes. -/
theorem C1_status_machine_amended (envs : Nat → ExecEnv) (store : Store)
    (domain : String) (m : Nat) :
    List.Chain' (fun a b => codeStep a b = true)
      (taskTrace envs store domain m) ∧
    (taskTrace envs store domain m).length ≤ 2 * (m + 1) + 1 := by
  have h := lifetime_statuses_chain envs domain m (m + 1) 0 store
  unfold taskTrace lifetimeRun
  constructor
  · rw [List.chain'_cons']
    refine ⟨?_, h.1⟩
    intro y hy
    rcases h.2.1 with he | hh
    · rw [he] at hy
      cases hy
    · rw [hh] at hy
      cases hy
      simp [codeStep]
  · have := h.2.2
    simp only [List.length_cons]
    omega

/-! ## C2: regeneration frequency -/

/-- C2, counterexample, on `_handle_scraping_failure` — the one place in the
repository with the claimed flag, and a path on which a successful
regeneration is realizable (it calls `self.scraper._generate_config(url)`,
which takes no extra keyword).  A first `ExtractionError` with the flag
still false regenerates and sets `schema_regenerated` to true (first
conjunct); a later `MissingContentError` in the same task's lifetime then
triggers a **second** regeneration attempt even though the flag is already
true (second conjunct) — `should_regenerate` consults the flag only for
`ExtractionError`, so regeneration is not bounded by once per task
lifetime. -/
theorem C2_regen_once_cex :
    handleScrapingFailure true { schema_regenerated := false, error := none }
        .extraction =
      (true, { schema_regenerated := true, error := none }, 1) ∧
    ¬ (handleScrapingFailure true { schema_regenerated := true, error := none }
        .missing).2.2 = 0 := by
  decide

/-- The regeneration path always makes exactly one regeneration attempt. -/
theorem regenPath_calls (s : Store) (d : String) (env : ExecEnv) :
    (regenPath s d env).2.2 = 1 := by
  unfold regenPath
  rcases hg : generateConfigStep s d env.regenOutcome with ⟨s2, r2⟩
  cases r2 with
  | error e => simp [hg]
  | ok c => cases env.scrape2 <;> simp [hg]

/-- One execution of `process_task` attempts regeneration at most once. -/
theorem core_regen_le_one (store : Store) (d : String) (env : ExecEnv) :
    (processTaskCore store d env).2.2.1 ≤ 1 := by
  unfold processTaskCore
  rcases hr : resolveConfig store d env.genOutcome with ⟨s, res, g⟩
  cases res with
  | error e => simp [hr]
  | ok cfg =>
    rcases hs1 : env.scrape1 with e | u
    case ok => simp [hr, hs1]
    case error =>
      have hrp := regenPath_calls s d env
      rcases hq : regenPath s d env with ⟨s2, out2, rc2⟩
      rw [hq] at hrp
      simp at hrp
      cases e <;> simp [hr, hs1, hq, hrp]

theorem exec_regen_le_one (store : Store) (d : String) (env : ExecEnv)
    (r m : Nat) : (processTaskExec store d env r m).regenCalls ≤ 1 := by
  have h := core_regen_le_one store d env
  rcases hc : processTaskCore store d env with ⟨s, out, rc, g⟩
  rw [hc] at h
  cases out <;> simpa [processTaskExec, hc] using h

theorem lifetime_regen_le_fuel (envs : Nat → ExecEnv) (d : String) (m : Nat) :
    ∀ (fuel r : Nat) (store : Store),
      (lifetimeGo envs d m store r fuel).regenCalls ≤ fuel := by
  intro fuel
  induction fuel with
  | zero => intro r store; simp [lifetimeGo]
  | succ fuel ih =>
    intro r store
    rcases hd : (processTaskExec store d (envs r) r m).retryDelay with _ | delay <;>
      simp only [lifetimeGo, hd]
    · exact (exec_regen_le_one store d (envs r) r m).trans (by omega)
    · have h1 := exec_regen_le_one store d (envs r) r m
      have h2 := ih (r + 1) (processTaskExec store d (envs r) r m).store
      omega

/-- C2, amended: regeneration is attempted at most once per **processing
attempt** (one call-attempt per execution that enters the regeneration path;
on the `task_manager` path that attempt is moreover the `TypeError`-raising
`force_refresh` call, which terminally fails the task), hence at most
`maxRetries + 1` call-attempts over a task's lifetime — not at most once per
lifetime.  Where the `schema_regenerated` flag exists
(`_handle_scraping_failure`), it is monotone — it moves `false → true` at
most once and is never reset — and it does block `ExtractionError`-triggered
regeneration, but a `MissingContentError` triggers a regeneration attempt
even when the flag is already true, and the flag stays true. -/
theorem C2_regen_once_amended :
    (∀ (store : Store) (d : String) (env : ExecEnv) (r m : Nat),
      (processTaskExec store d env r m).regenCalls ≤ 1) ∧
    (∀ (envs : Nat → ExecEnv) (store : Store) (d : String) (m : Nat),
      (lifetimeRun envs store d m).regenCalls ≤ m + 1) ∧
    (∀ (rOk : Bool) (ti : TaskInfo) (e : ScrapeFailure),
      ti.schema_regenerated ≤ ((handleScrapingFailure rOk ti e).2.1).schema_regenerated) ∧
    (∀ (rOk : Bool) (er : Option String),
      handleScrapingFailure rOk { schema_regenerated := true, error := er } .extraction =
        (false, { schema_regenerated := true, error := er }, 0)) ∧
    (∀ (rOk : Bool) (er : Option String),
      (handleScrapingFailure rOk { schema_regenerated := true, error := er }
          .missing).2.2 = 1 ∧
      ((handleScrapingFailure rOk { schema_regenerated := true, error := er }
          .missing).2.1).schema_regenerated = true) := by
  refine ⟨fun store d env r m => exec_regen_le_one store d env r m,
          fun envs store d m => lifetime_regen_le_fuel envs d m (m + 1) 0 store,
          ?_, ?_, ?_⟩
  · intro rOk ti e
    rcases ti with ⟨sr, er⟩
    cases sr <;> cases e <;> cases rOk <;> simp [handleScrapingFailure]
  · intro rOk er
    cases rOk <;> simp [handleScrapingFailure]
  · intro rOk er
    cases rOk <;> simp [handleScrapingFailure]

/-! ## C3: backoff schedule -/

/-- Every scrape attempt fails. -/
def allFail : Nat → Bool := fun _ => false

/-- Every Celery execution ends in a retriable `ScrapingException`. -/
def envsAllFail : Nat → ExecEnv := fun _ => envScrapeFail

/-- C3, counterexample: with `max_attempts = 3` and every attempt failing,
the loop of `QueueManager._process_task` sleeps only twice — `60*2` and
`60*4` seconds; there is no third delay `60*8`, because the third failed
attempt reaches `attempt >= max_attempts` and fails immediately. -/
theorem C3_backoff_cex : (queueProcessTask allFail).delays ≠ [120, 240, 480] := by
  decide

/-- C3, amended: with three consecutive failures and `max_attempts = 3`,
`QueueManager._process_task` ends `FAILED` with `attempt == 3`, and exactly
two backoff delays occur, `60*2^1 = 120` and `60*2^2 = 240` seconds (the
base delay 60 is hard-coded; the delay before re-entering the loop with
`attempt = k` is `60 * 2^k`).  On the Celery path
(`TaskManager.process_task`, `max_retries = 3`) the retry countdowns are
`60 * 2^retries` for `retries = 0, 1, 2`, i.e. `60, 120, 240`, over four
executions, after which the task is `FAILED`. -/
theorem C3_backoff_amended :
    queueProcessTask allFail =
      { status := .failed, attempt := 3, delays := [120, 240] } ∧
    (lifetimeRun envsAllFail emptyStore "example.com" 3).delays = [60, 120, 240] ∧
    (taskTrace envsAllFail emptyStore "example.com" 3).getLast? = some .failed := by
  refine ⟨by decide, by decide, by decide⟩

/-! ## C7: a failing regeneration -/

/-- The regeneration path is entered (`MissingContentError`) and the
regeneration itself fails with a non-`ScrapingException` error — which is
what actually happens at runtime: the call passes `force_refresh=True`,
a keyword `SchemaGenerator.generate_config` does not accept, raising
`TypeError` before the analyzer is even reached. -/
def envRegenCrash : ExecEnv :=
  { genOutcome := .ok cfgGen, regenOutcome := .error .other,
    scrape1 := .error .missingContent, scrape2 := .ok () }

/-- C7, counterexample: when regeneration fails, the execution ends with the
task `FAILED` and **no** retry scheduled, although the retry budget is
untouched (`retries = 0 < 3`) — the failure does, by itself, terminally fail
the task instead of proceeding to a backoff retry. -/
theorem C7_regen_failure_cex :
    (processTaskExec emptyStore "example.com" envRegenCrash 0 3).statuses =
      [.processing, .failed] ∧
    (processTaskExec emptyStore "example.com" envRegenCrash 0 3).retryDelay = none := by
  refine ⟨by decide, by decide⟩

/-- C7, amended: a regeneration failure is not specially handled — the error
propagates out of the inner handler, the task is marked `FAILED`, and a
backoff retry is scheduled **only** when the propagated error is a
`ScrapingException` and retries remain; for any other error (including the
`TypeError` the call actually raises) the `FAILED` state is final.  The
failed regeneration leaves the stored recipe untouched (the old recipe is
still what the store holds for the domain). -/
theorem C7_regen_failure_amended (store : Store) (domain : String)
    (env : ExecEnv) (r m : Nat) (cfg : DomainConfig) (e : PyErr)
    (hload : loadConfig store domain = some cfg)
    (hs : env.scrape1 = .error .missingContent ∨ env.scrape1 = .error .extractionErr)
    (hr : env.regenOutcome = .error e) :
    (processTaskExec store domain env r m).statuses = [.processing, .failed] ∧
    (processTaskExec store domain env r m).retryDelay =
      (if e.isScrapingException ∧ r < m then some (60 * 2 ^ r) else none) ∧
    (processTaskExec store domain env r m).store domain = store domain := by
  have hres : resolveConfig store domain env.genOutcome = (store, .ok cfg, 0) := by
    unfold resolveConfig
    rw [hload]
  have hregen : regenPath store domain env = (store, .failure e, 1) := by
    unfold regenPath
    rw [hr]
    rfl
  have hcore : processTaskCore store domain env = (store, .failure e, 1, 0) := by
    rcases hs with h1 | h1 <;> simp [processTaskCore, hres, h1, hregen]
  refine ⟨by simp [processTaskExec, hcore], by simp [processTaskExec, hcore],
          by simp [processTaskExec, hcore]⟩

/-- C7 witness: the amended statement at a store already holding the recipe
for `example.com`, with the regeneration raising a non-`ScrapingException`:
the task fails with no retry and the stored recipe survives. -/
theorem C7_regen_failure_witness :
    (processTaskExec storeGen "example.com" envRegenCrash 0 3).statuses =
      [.processing, .failed] ∧
    (processTaskExec storeGen "example.com" envRegenCrash 0 3).retryDelay = none ∧
    (processTaskExec storeGen "example.com" envRegenCrash 0 3).store "example.com" =
      storeGen "example.com" := by
  have h := C7_regen_failure_amended storeGen "example.com" envRegenCrash 0 3
    cfgParsed .other (by decide) (Or.inl rfl) rfl
  exact ⟨h.1, h.2.1, h.2.2⟩

/-! ## C9: resolve loads before generating -/

/-- C9: resolving the recipe for a domain whose store entry parses loads it
and never invokes the generator (`if not config:` is never taken — a
`DomainConfig` instance is always truthy); and the generator is invoked
exactly when `load_config` returned `None`. -/
theorem C9_resolve_idempotent (store : Store) (domain : String)
    (j : ConfigJson) (cfg : DomainConfig) (gen : Except PyErr DomainConfig)
    (hstore : store domain = some j) (hparse : parseConfig j = some cfg) :
    resolveConfig store domain gen = (store, .ok cfg, 0) ∧
    ∀ (s2 : Store) (d2 : String) (g2 : Except PyErr DomainConfig),
      loadConfig s2 d2 = none → (resolveConfig s2 d2 g2).2.2 = 1 := by
  constructor
  · simp [resolveConfig, loadConfig, hstore, hparse]
  · intro s2 d2 g2 h2
    unfold resolveConfig
    rw [h2]

/-- C9 witness: against the concrete store holding `jGen`, resolution
returns the parsed recipe, leaves the store alone and makes zero generator
calls. -/
theorem C9_resolve_idempotent_witness :
    resolveConfig storeGen "example.com" (.error .other) =
      (storeGen, .ok cfgParsed, 0) :=
  (C9_resolve_idempotent storeGen "example.com" jGen cfgParsed (.error .other)
    (by decide) (by decide)).1

/-! ## C8: request overrides do not touch the store -/

/-- C8: applying the request-specific overrides (`_update_config_settings`)
leaves the persisted store untouched — the stored recipe for every domain is
exactly what it was — while on the in-flight config only the `headers` and
`timeout` keys change: every other key is preserved, and `timeout` is set to
the request's value. -/
theorem C8_overrides_frame (store : Store) (config : ReqConfigDict)
    (headers : Option (List (String × String))) (timeout : Int) :
    (applyRequestOverrides store config headers timeout).1 = store ∧
    (applyRequestOverrides store config headers timeout).2.rest = config.rest ∧
    (applyRequestOverrides store config headers timeout).2.timeout = some timeout := by
  refine ⟨rfl, ?_, ?_⟩ <;>
    unfold applyRequestOverrides updateConfigSettings <;>
    rcases headers with _ | hs
  · rfl
  · cases hh : hs.isEmpty <;> simp [hh]
  · rfl
  · cases hh : hs.isEmpty <;> simp [hh]

end Scrape
